import Mathlib

/-
Shallow embedding of the turfer-backend core: the game join/leave/approval
state machine (src/src/models/GameSupabase.ts, with the record-shaped
SQLite variant in src/src/types/index.ts sharing the same logic), the
booking availability engine (src/unnamed/part_006 and part_007), the
booking-creation pricing computation (the bookings route), and the game
update/cancel route handlers (src/src/routes/games.ts).

Conventions of the embedding:
- TypeScript string enums (game status, booking status, payment fields)
  stay Lean Strings holding the same literals.
- "HH:MM" wall-clock times are embedded as minute offsets (Nat); the
  zero-padded string comparisons in the source order exactly as the
  numeric minute values do.
- "YYYY-MM-DD" dates are embedded as a year/month/day record; the day of
  week computed by new Date(dateString).getDay() is reproduced by the
  standard civil-from-days computation below.
- Each model method loads a game/booking snapshot, computes, and persists
  an update; the embedding passes the aggregate explicitly and returns
  the result record together with the stored aggregate after the call.
-/

namespace Turfer

/-- Element of the join_requests column in the Supabase variant and in the
record-shaped SQLite variant: `{ userId, requestedAt, status }`. -/
structure JoinRequest where
  userId : String
  requestedAt : String
  status : String
deriving DecidableEq

/-- The Game aggregate (src/src/types/index.ts, interface Game), restricted
to the fields the five membership operations and the update merge touch. -/
structure Game where
  hostId : String
  turfId : String
  date : String
  startTime : String
  endTime : String
  sport : String
  format : String
  skillLevel : String
  currentPlayers : Nat
  maxPlayers : Nat
  costPerPerson : Nat
  description : Option String
  notes : Option String
  isPrivate : Bool
  joinRequests : List JoinRequest
  confirmedPlayers : List String
  status : String
deriving DecidableEq

/-- A model method returns `{ success, message }` and persists an updated
row; the embedding carries the stored game alongside the result. -/
structure OpResult where
  success : Bool
  message : String
  game : Game
deriving DecidableEq

/-- GameModel.joinGame (GameSupabase.ts lines 138-186). `now` is the
reading of `new Date().toISOString()` taken in the private branch. -/
def joinGame (game : Game) (userId : String) (now : String) : OpResult :=
  if game.status != "open" then
    ⟨false, "Game is not open for joining", game⟩
  else if game.currentPlayers >= game.maxPlayers then
    ⟨false, "Game is full", game⟩
  else if game.confirmedPlayers.contains userId then
    ⟨false, "Already joined this game", game⟩
  else if game.joinRequests.any (fun req => req.userId == userId) then
    ⟨false, "Join request already pending", game⟩
  else if !game.isPrivate then
    let updatedConfirmedPlayers := game.confirmedPlayers ++ [userId]
    let newStatus := if updatedConfirmedPlayers.length >= game.maxPlayers then "full" else "open"
    ⟨true, "Successfully joined the game",
      { game with
          confirmedPlayers := updatedConfirmedPlayers,
          currentPlayers := updatedConfirmedPlayers.length + 1,
          status := newStatus }⟩
  else
    let updatedJoinRequests := game.joinRequests ++ [⟨userId, now, "pending"⟩]
    ⟨true, "Join request sent to game host",
      { game with joinRequests := updatedJoinRequests }⟩

/-- GameModel.leaveGame (GameSupabase.ts lines 188-212). -/
def leaveGame (game : Game) (userId : String) : OpResult :=
  let updatedConfirmedPlayers := game.confirmedPlayers.filter (fun id => id != userId)
  let updatedJoinRequests := game.joinRequests.filter (fun req => req.userId != userId)
  if updatedConfirmedPlayers.length == game.confirmedPlayers.length &&
     updatedJoinRequests.length == game.joinRequests.length then
    ⟨false, "Not part of this game", game⟩
  else
    let newStatus := if updatedConfirmedPlayers.length < game.maxPlayers then "open" else game.status
    ⟨true, "Successfully left the game",
      { game with
          confirmedPlayers := updatedConfirmedPlayers,
          joinRequests := updatedJoinRequests,
          currentPlayers := updatedConfirmedPlayers.length + 1,
          status := newStatus }⟩

/-- GameModel.createJoinRequest (GameSupabase.ts lines 214-247). -/
def createJoinRequest (game : Game) (userId : String) (now : String) : OpResult :=
  if game.hostId == userId then
    ⟨false, "You cannot join your own game", game⟩
  else if game.confirmedPlayers.contains userId then
    ⟨false, "Already joined this game", game⟩
  else if game.joinRequests.any (fun req => req.userId == userId) then
    ⟨false, "Join request already pending", game⟩
  else
    ⟨true, "Join request sent successfully",
      { game with joinRequests := game.joinRequests ++ [⟨userId, now, "pending"⟩] }⟩

/-- GameModel.acceptRequest (GameSupabase.ts lines 261-290; identical logic
in src/src/types/index.ts lines 748-776): findIndex on the requester, then
splice it out and append to confirmed players. There is no capacity or
status check on this path, and status is not recomputed. -/
def acceptRequest (game : Game) (userId : String) : OpResult :=
  match game.joinRequests.findIdx? (fun req => req.userId == userId) with
  | none => ⟨false, "Join request not found", game⟩
  | some _ =>
    let joinRequests := game.joinRequests.eraseP (fun req => req.userId == userId)
    let confirmedPlayers := game.confirmedPlayers ++ [userId]
    ⟨true, "Player request accepted",
      { game with
          joinRequests := joinRequests,
          confirmedPlayers := confirmedPlayers,
          currentPlayers := confirmedPlayers.length + 1 }⟩

/-- GameModel.rejectRequest (GameSupabase.ts lines 292-315). -/
def rejectRequest (game : Game) (userId : String) : OpResult :=
  match game.joinRequests.findIdx? (fun req => req.userId == userId) with
  | none => ⟨false, "Join request not found", game⟩
  | some _ =>
    ⟨true, "Player request rejected",
      { game with joinRequests := game.joinRequests.eraseP (fun req => req.userId == userId) }⟩

/-- GameModel.respondToJoinRequest (GameSupabase.ts lines 317-356). -/
def respondToJoinRequest (game : Game) (hostId userId : String) (approve : Bool) : OpResult :=
  if game.hostId != hostId then
    ⟨false, "Only the host can approve join requests", game⟩
  else if !game.joinRequests.any (fun req => req.userId == userId) then
    ⟨false, "No pending join request from this user", game⟩
  else
    let updatedJoinRequests := game.joinRequests.filter (fun req => req.userId != userId)
    if approve then
      if game.currentPlayers >= game.maxPlayers then
        ⟨false, "Game is full", game⟩
      else
        let updatedConfirmedPlayers := game.confirmedPlayers ++ [userId]
        let newStatus := if updatedConfirmedPlayers.length >= game.maxPlayers then "full" else "open"
        ⟨true, "Player approved and added to the game",
          { game with
              joinRequests := updatedJoinRequests,
              confirmedPlayers := updatedConfirmedPlayers,
              currentPlayers := updatedConfirmedPlayers.length + 1,
              status := newStatus }⟩
    else
      ⟨true, "Join request declined", { game with joinRequests := updatedJoinRequests }⟩

/-- Partial update payload accepted by GameModel.update
(src/src/types/index.ts lines 663-690): each field optional. -/
structure GameUpdate where
  date : Option String
  startTime : Option String
  endTime : Option String
  sport : Option String
  format : Option String
  skillLevel : Option String
  currentPlayers : Option Nat
  maxPlayers : Option Nat
  costPerPerson : Option Nat
  description : Option String
  notes : Option String
  isPrivate : Option Bool
  joinRequests : Option (List JoinRequest)
  confirmedPlayers : Option (List String)
  status : Option String
deriving DecidableEq

/-- The all-absent update payload. -/
def emptyGameUpdate : GameUpdate :=
  ⟨none, none, none, none, none, none, none, none, none, none, none, none, none, none, none⟩

/-- JavaScript truthiness of an optional string field: present and nonempty. -/
def strTruthy (o : Option String) : Bool :=
  match o with
  | some s => s != ""
  | none => false

/-- JavaScript truthiness of an optional numeric field: present and nonzero. -/
def natTruthy (o : Option Nat) : Bool :=
  match o with
  | some n => n != 0
  | none => false

/-- The field merge done by GameModel.update: `if (updates.date) ...` guards
(truthiness) for string and maxPlayers fields, `!== undefined` guards for
currentPlayers, costPerPerson, description, notes, isPrivate, and plain
truthiness for the always-truthy array fields. -/
def applyGameUpdate (g : Game) (u : GameUpdate) : Game :=
  { g with
      date := if strTruthy u.date then u.date.getD g.date else g.date,
      startTime := if strTruthy u.startTime then u.startTime.getD g.startTime else g.startTime,
      endTime := if strTruthy u.endTime then u.endTime.getD g.endTime else g.endTime,
      sport := if strTruthy u.sport then u.sport.getD g.sport else g.sport,
      format := if strTruthy u.format then u.format.getD g.format else g.format,
      skillLevel := if strTruthy u.skillLevel then u.skillLevel.getD g.skillLevel else g.skillLevel,
      currentPlayers := u.currentPlayers.getD g.currentPlayers,
      maxPlayers := if natTruthy u.maxPlayers then u.maxPlayers.getD g.maxPlayers else g.maxPlayers,
      costPerPerson := u.costPerPerson.getD g.costPerPerson,
      description := match u.description with | some d => some d | none => g.description,
      notes := match u.notes with | some n => some n | none => g.notes,
      isPrivate := u.isPrivate.getD g.isPrivate,
      joinRequests := u.joinRequests.getD g.joinRequests,
      confirmedPlayers := u.confirmedPlayers.getD g.confirmedPlayers,
      status := if strTruthy u.status then u.status.getD g.status else g.status }

/-- PUT /:id handler body (src/src/routes/games.ts lines 246-286), after the
game has been loaded: host/admin check, then a guard rejecting only
in_progress and completed, then the merge. -/
def updateGameHandler (game : Game) (userId role : String) (updates : GameUpdate) : OpResult :=
  if game.hostId != userId && role != "admin" then
    ⟨false, "Only the host can update this game", game⟩
  else if game.status == "in_progress" || game.status == "completed" then
    ⟨false, "Cannot update game that has started or completed", game⟩
  else
    ⟨true, "Game updated successfully", applyGameUpdate game updates⟩

/-- DELETE /:id handler body (src/src/routes/games.ts lines 289-328):
host/admin check, guard on in_progress/completed, else status := cancelled. -/
def cancelGameHandler (game : Game) (userId role : String) : OpResult :=
  if game.hostId != userId && role != "admin" then
    ⟨false, "Only the host can cancel this game", game⟩
  else if game.status == "in_progress" || game.status == "completed" then
    ⟨false, "Cannot cancel game that has started or completed", game⟩
  else
    ⟨true, "Game cancelled successfully",
      applyGameUpdate game { emptyGameUpdate with status := some "cancelled" }⟩

/-- A calendar date, the parse of a "YYYY-MM-DD" string. -/
structure CalDate where
  year : Nat
  month : Nat
  day : Nat
deriving DecidableEq

/-- Days since 1970-01-01 of a civil date (the computation behind
new Date("YYYY-MM-DD"), which parses the string as a UTC date). Standard
civil-from-days algorithm; valid for years from 1 onward. -/
def daysFromCivil (dt : CalDate) : Int :=
  let yAdj := if dt.month <= 2 then dt.year - 1 else dt.year
  let era := yAdj / 400
  let yoe := yAdj % 400
  let mp := (dt.month + 9) % 12
  let doy := (153 * mp + 2) / 5 + (dt.day - 1)
  let doe := yoe * 365 + yoe / 4 - yoe / 100 + doy
  (era * 146097 + doe : Int) - 719468

/-- Date.prototype.getDay of the parsed date: 0 is Sunday, 6 is Saturday
(1970-01-01 was a Thursday, day 4). -/
def getDay (dt : CalDate) : Nat :=
  ((daysFromCivil dt + 4) % 7).toNat

/-- The Booking record (src/src/types/index.ts, interface Booking), with
times as minute offsets and the amount as an exact rational. -/
structure Booking where
  id : String
  userId : String
  turfId : String
  date : CalDate
  startTime : Nat
  endTime : Nat
  totalPlayers : Nat
  totalAmount : Rat
  status : String
  notes : Option String
  paymentStatus : String
  paymentMethod : Option String
deriving DecidableEq

/-- The Turf fields the booking pipeline reads. -/
structure Turf where
  id : String
  ownerId : String
  pricePerHour : Rat
  pricePerHourWeekend : Option Rat
  isActive : Bool
deriving DecidableEq

/-- BookingModel.checkAvailability, SQLite variant (src/unnamed/part_007
lines 82-105): counts bookings of the turf and date with status pending or
confirmed, excluding excludeBookingId when given, whose times satisfy
(start_time < endTime AND end_time > startTime) OR
(start_time < startTime AND end_time > endTime) OR
(start_time >= startTime AND start_time < endTime);
available iff the count is zero. -/
def checkAvailability (bookings : List Booking) (turfId : String) (date : CalDate)
    (startTime endTime : Nat) (excludeBookingId : Option String) : Bool :=
  let conflicting := bookings.filter (fun bk =>
    bk.turfId == turfId && bk.date == date &&
    (bk.status == "pending" || bk.status == "confirmed") &&
    ((bk.startTime < endTime && bk.endTime > startTime) ||
     (bk.startTime < startTime && bk.endTime > endTime) ||
     (bk.startTime >= startTime && bk.startTime < endTime)) &&
    (match excludeBookingId with
     | some ex => bk.id != ex
     | none => true))
  conflicting.length == 0

/-- BookingModel.findConflictingBookings, Supabase variant
(src/unnamed/part_006 lines 95-107): bookings of the turf and date with
status pending or confirmed satisfying
(start_time <= startTime AND end_time > startTime) OR
(start_time < endTime AND end_time >= endTime) OR
(start_time >= startTime AND end_time <= endTime). -/
def findConflictingBookings (bookings : List Booking) (turfId : String) (date : CalDate)
    (startTime endTime : Nat) : List Booking :=
  bookings.filter (fun bk =>
    bk.turfId == turfId && bk.date == date &&
    (bk.status == "pending" || bk.status == "confirmed") &&
    ((bk.startTime <= startTime && bk.endTime > startTime) ||
     (bk.startTime < endTime && bk.endTime >= endTime) ||
     (bk.startTime >= startTime && bk.endTime <= endTime)))

/-- BookingModel.checkAvailability, Supabase variant (src/unnamed/part_006
lines 109-112): available iff findConflictingBookings is empty. -/
def checkAvailabilitySupabase (bookings : List Booking) (turfId : String) (date : CalDate)
    (startTime endTime : Nat) : Bool :=
  (findConflictingBookings bookings turfId date startTime endTime).length == 0

/-- The fixed slot grid both getAvailableSlots variants generate: hours 6
to 22, each slot [h:00, h+1:00), in minutes. -/
def hourSlots : List (Nat × Nat) :=
  (List.range 17).map (fun i => (360 + 60 * i, 420 + 60 * i))

/-- The bookings the slot queries consider: same turf and date, status
pending or confirmed. -/
def bookedForDay (bookings : List Booking) (turfId : String) (date : CalDate) : List Booking :=
  bookings.filter (fun bk =>
    bk.turfId == turfId && bk.date == date &&
    (bk.status == "pending" || bk.status == "confirmed"))

/-- BookingModel.getAvailableSlots, Supabase variant (src/unnamed/part_006
lines 114-150): a slot is kept unless some booked interval satisfies
(slotStart >= start AND slotStart < end) OR
(slotEnd > start AND slotEnd <= end) OR
(slotStart <= start AND slotEnd >= end). -/
def getAvailableSlots (bookings : List Booking) (turfId : String) (date : CalDate) :
    List (Nat × Nat) :=
  let bookedSlots := bookedForDay bookings turfId date
  hourSlots.filter (fun sl =>
    !(bookedSlots.any (fun bk =>
      (sl.1 >= bk.startTime && sl.1 < bk.endTime) ||
      (sl.2 > bk.startTime && sl.2 <= bk.endTime) ||
      (sl.1 <= bk.startTime && sl.2 >= bk.endTime))))

/-- BookingModel.getAvailableSlots, SQLite variant (src/unnamed/part_007
lines 107-128): a slot is kept unless its start time lies inside some
booked interval (only the slot start is tested). The source renders each
slot as the string "HH:MM - HH:MM" and parses the start back out before
comparing; the embedding keeps the minute pair. -/
def getAvailableSlotsSqlite (bookings : List Booking) (turfId : String) (date : CalDate) :
    List (Nat × Nat) :=
  let bookedSlots := bookedForDay bookings turfId date
  hourSlots.filter (fun sl =>
    !(bookedSlots.any (fun bk => sl.1 >= bk.startTime && sl.1 < bk.endTime)))

/-- JavaScript truthiness of the optional weekend rate (undefined or 0 is
falsy). -/
def rateTruthy (o : Option Rat) : Bool :=
  match o with
  | some w => w != 0
  | none => false

/-- POST / booking-creation handler body (the bookings route,
src/setup-supabase-data.sql concatenation lines 88-150), after validation:
turf existence/active check, availability check, then
durationHours = (endMinutes - startMinutes) / 60,
isWeekend = getDay in {0, 6},
rate = weekend rate if isWeekend and the weekend rate is truthy, else the
hourly rate, and the booking is created with status pending. `newId` is
the generated id. -/
def createBookingHandler (turf : Option Turf) (bookings : List Booking)
    (newId userId turfId : String) (date : CalDate) (startTime endTime : Nat)
    (totalPlayers : Nat) (notes : Option String) (paymentMethod : Option String) :
    Except String Booking :=
  match turf with
  | none => .error "Turf not found or inactive"
  | some t =>
    if !t.isActive then
      .error "Turf not found or inactive"
    else if !(checkAvailability bookings turfId date startTime endTime none) then
      .error "Time slot not available"
    else
      let durationHours : Rat := (((endTime : Int) - (startTime : Int) : Int) : Rat) / 60
      let isWeekend := getDay date == 0 || getDay date == 6
      let hourlyRate : Rat :=
        if isWeekend && rateTruthy t.pricePerHourWeekend then
          t.pricePerHourWeekend.getD 0
        else
          t.pricePerHour
      let totalAmount := durationHours * hourlyRate
      .ok
        { id := newId, userId := userId, turfId := turfId, date := date,
          startTime := startTime, endTime := endTime, totalPlayers := totalPlayers,
          totalAmount := totalAmount, status := "pending", notes := notes,
          paymentStatus := "pending", paymentMethod := paymentMethod }

/-! Concrete fixtures used by witnesses and counterexamples. -/

/-- A public open game hosted by "host" with room to spare. -/
def gamePublicOpen : Game :=
  ⟨"host", "t1", "2025-08-24", "18:00", "19:00", "Football", "5v5", "all",
   1, 4, 100, none, none, false, [], [], "open"⟩

/-- The private twin of `gamePublicOpen`. -/
def gamePrivateOpen : Game :=
  ⟨"host", "t1", "2025-08-24", "18:00", "19:00", "Football", "5v5", "all",
   1, 4, 100, none, none, true, [], [], "open"⟩

/-- maxPlayers 3, host plus one confirmed player, consistent cached count. -/
def gameOneSlotLeft : Game :=
  ⟨"host", "t1", "2025-08-24", "18:00", "19:00", "Football", "5v5", "all",
   2, 3, 100, none, none, false, [], ["a"], "open"⟩

/-- maxPlayers 2 with host plus one confirmed (capacity exhausted) and a
pending join request from "b". -/
def gameAtCapacityWithRequest : Game :=
  ⟨"host", "t1", "2025-08-24", "18:00", "19:00", "Football", "5v5", "all",
   2, 2, 100, none, none, true, [⟨"b", "t0", "pending"⟩], ["a"], "open"⟩

/-- A private open game with spare capacity and a pending request from "b". -/
def gameRequestPending : Game :=
  ⟨"host", "t1", "2025-08-24", "18:00", "19:00", "Football", "5v5", "all",
   1, 3, 100, none, none, true, [⟨"b", "t0", "pending"⟩], [], "open"⟩

/-- A cancelled game that still has a confirmed player and a pending request. -/
def gameCancelled : Game :=
  ⟨"host", "t1", "2025-08-24", "18:00", "19:00", "Football", "5v5", "all",
   2, 4, 100, none, none, false, [⟨"b", "t0", "pending"⟩], ["a"], "cancelled"⟩

/-- A confirmed booking 14:00-15:00 on turf "t1" (Scenario C). -/
def bookingTwoToThree : Booking :=
  ⟨"b2", "u1", "t1", ⟨2025, 8, 24⟩, 840, 900, 10, 800, "confirmed", none, "pending", none⟩

/-- A pending booking 06:30-07:30 on turf "t1", straddling the boundary of
the first two hour slots. -/
def bookingHalfPast : Booking :=
  ⟨"b1", "u1", "t1", ⟨2025, 8, 24⟩, 390, 450, 10, 800, "pending", none, "pending", none⟩

/-- An active turf with hourly rate 800 and weekend rate 1000. -/
def turfTest : Turf := ⟨"t1", "owner1", 800, some 1000, true⟩

/-- An in-progress game. -/
def gameInProgress : Game :=
  ⟨"host", "t1", "2025-08-24", "18:00", "19:00", "Football", "5v5", "all",
   2, 4, 100, none, none, false, [], ["a"], "in_progress"⟩

/-- Erase the wall-clock requestedAt stamp of a join request. -/
def stripRequestTime (r : JoinRequest) : JoinRequest :=
  ⟨r.userId, "", r.status⟩

/-- Erase every requestedAt stamp inside a game. -/
def stripGameTimes (g : Game) : Game :=
  { g with joinRequests := g.joinRequests.map stripRequestTime }

/-- Erase every requestedAt stamp inside an operation result. -/
def stripResultTimes (r : OpResult) : OpResult :=
  ⟨r.success, r.message, stripGameTimes r.game⟩

/-- The pending booking the POST / handler stores for a slot when a user
books it (id and user left blank; they do not affect the slot queries). -/
def slotBooking (turfId : String) (date : CalDate) (sl : Nat × Nat) : Booking :=
  ⟨"", "", turfId, date, sl.1, sl.2, 0, 0, "pending", none, "pending", none⟩

end Turfer

namespace Turfer

/-! Theorems settling the claims. -/

/-- C1: the capacity invariant len(confirmedPlayers) <= maxPlayers - 1 is
claimed to be preserved by every join/approve operation, acceptRequest
included; but acceptRequest performs no capacity check, so from a game at
the bound (maxPlayers 2, one confirmed player) accepting the pending
request succeeds and pushes confirmedPlayers past the bound. -/
theorem C1_acceptRequest_breaks_capacity :
    gameAtCapacityWithRequest.confirmedPlayers.length ≤
      gameAtCapacityWithRequest.maxPlayers - 1 ∧
    (acceptRequest gameAtCapacityWithRequest "b").success = true ∧
    (acceptRequest gameAtCapacityWithRequest "b").game.confirmedPlayers.length >
      gameAtCapacityWithRequest.maxPlayers - 1 := by
  decide

/-- C7: the claim says every join or join-request operation by the host
fails, so the host never enters joinRequests or confirmedPlayers; but
joinGame never compares userId with hostId: on a private game it queues
the host as a join request and on a public game it confirms the host,
while only createJoinRequest rejects the self-join. -/
theorem C7_host_join_not_rejected :
    (joinGame gamePrivateOpen "host" "t0").success = true ∧
    (joinGame gamePrivateOpen "host" "t0").game.joinRequests.any
      (fun req => req.userId == "host") = true ∧
    (joinGame gamePublicOpen "host" "t0").success = true ∧
    "host" ∈ (joinGame gamePublicOpen "host" "t0").game.confirmedPlayers ∧
    (createJoinRequest gamePrivateOpen "host" "t0").success = false := by
  decide

/-- C2 counterexample: on a maxPlayers-3 game with host plus one confirmed
player and consistent counts, a second join succeeds and brings the
confirmed count including the host to maxPlayers, yet the stored status is
"open", not "full"; the next join then fails with the GameFullError
message "Game is full" rather than the GameClosedError message. -/
theorem C2_full_status_counterexample :
    (joinGame gameOneSlotLeft "b" "t0").success = true ∧
    (joinGame gameOneSlotLeft "b" "t0").game.confirmedPlayers.length + 1 =
      gameOneSlotLeft.maxPlayers ∧
    (joinGame gameOneSlotLeft "b" "t0").game.status = "open" ∧
    (joinGame (joinGame gameOneSlotLeft "b" "t0").game "c" "t1").success = false ∧
    (joinGame (joinGame gameOneSlotLeft "b" "t0").game "c" "t1").message =
      "Game is full" := by
  decide

/-- C2 amended: after a successful public join or approval the stored
status is "full" iff the confirmed count EXCLUDING the host has reached
maxPlayers (so with consistent counts the status stays "open" at
capacity), and a join against an open game whose cached currentPlayers has
reached maxPlayers fails with the GameFullError message "Game is full". -/
theorem C2_full_status_amended :
    ∀ (g : Game) (u now : String),
      ((joinGame g u now).success = true → g.isPrivate = false →
        ((joinGame g u now).game.status = "full" ↔
          g.maxPlayers ≤ (joinGame g u now).game.confirmedPlayers.length)) ∧
      (∀ h, (respondToJoinRequest g h u true).success = true →
        ((respondToJoinRequest g h u true).game.status = "full" ↔
          g.maxPlayers ≤ (respondToJoinRequest g h u true).game.confirmedPlayers.length)) ∧
      (g.status = "open" → g.maxPlayers ≤ g.currentPlayers →
        joinGame g u now = ⟨false, "Game is full", g⟩) := by
  intro g u now
  refine ⟨?_, ?_, ?_⟩
  · unfold joinGame
    split
    · simp
    · split
      · simp
      · split
        · simp
        · split
          · simp
          · split
            · intro _ _
              constructor
              · intro hfull
                simp only at hfull
                split at hfull
                · assumption
                · exact absurd hfull (by decide)
              · intro hge
                simp only
                rw [if_pos hge]
            · intro _ hpriv
              simp_all
  · intro h
    unfold respondToJoinRequest
    split
    · simp
    · split
      · simp
      · split
        · split
          · simp
          · intro _
            constructor
            · intro hfull
              simp only at hfull
              split at hfull
              · assumption
              · exact absurd hfull (by decide)
            · intro hge
              simp only
              rw [if_pos hge]
        · next hfalse => exact absurd rfl hfalse
  · intro hopen hge
    unfold joinGame
    rw [if_neg (by simp [hopen]), if_pos hge]

/-- C2 witness: the amended statement evaluated on the concrete maxPlayers-3
game of the counterexample, its one-join successor, and a pending-request
approval. -/
theorem C2_full_status_witness :
    ((joinGame gameOneSlotLeft "b" "t0").game.status = "full" ↔
      gameOneSlotLeft.maxPlayers ≤
        (joinGame gameOneSlotLeft "b" "t0").game.confirmedPlayers.length) ∧
    ((respondToJoinRequest gameRequestPending "host" "b" true).game.status = "full" ↔
      gameRequestPending.maxPlayers ≤
        (respondToJoinRequest gameRequestPending "host" "b" true).game.confirmedPlayers.length) ∧
    joinGame (joinGame gameOneSlotLeft "b" "t0").game "c" "t1" =
      ⟨false, "Game is full", (joinGame gameOneSlotLeft "b" "t0").game⟩ := by
  refine ⟨?_, ?_, ?_⟩
  · exact (C2_full_status_amended gameOneSlotLeft "b" "t0").1 (by decide) (by decide)
  · exact (C2_full_status_amended gameRequestPending "b" "t0").2.1 "host" (by decide)
  · exact (C2_full_status_amended ((joinGame gameOneSlotLeft "b" "t0").game) "c" "t1").2.2
      (by decide) (by decide)

/-- C3 counterexample: on a cancelled game, leaveGame succeeds and mutates
the aggregate, respondToJoinRequest approves a pending request, and the
update and cancel route handlers go through for the host, contradicting
the claim that every membership operation fails with GameClosedError on a
terminal status. -/
theorem C3_closed_status_counterexample :
    gameCancelled.status = "cancelled" ∧
    (leaveGame gameCancelled "a").success = true ∧
    (leaveGame gameCancelled "a").game ≠ gameCancelled ∧
    (respondToJoinRequest gameCancelled "host" "b" true).success = true ∧
    (updateGameHandler gameCancelled "host" "user"
      { emptyGameUpdate with notes := some "x" }).success = true ∧
    (cancelGameHandler gameCancelled "host" "user").success = true := by
  decide

/-- C3 amended: only joinGame requires status "open" (failing with the
GameClosedError message otherwise); the update and cancel route handlers
reject exactly in_progress and completed, so a cancelled game can still be
updated or re-cancelled by its host; leaveGame and respondToJoinRequest
perform no status check at all, succeeding on any status when their
membership and authorization preconditions hold. -/
theorem C3_closed_status_amended :
    ∀ (g : Game) (u uid role now : String) (upd : GameUpdate),
      (g.status ≠ "open" →
        joinGame g u now = ⟨false, "Game is not open for joining", g⟩) ∧
      (g.status = "in_progress" ∨ g.status = "completed" →
        (updateGameHandler g uid role upd).success = false ∧
        (updateGameHandler g uid role upd).game = g ∧
        (cancelGameHandler g uid role).success = false ∧
        (cancelGameHandler g uid role).game = g) ∧
      (g.hostId = uid → g.status = "cancelled" →
        (updateGameHandler g uid role upd).success = true ∧
        (cancelGameHandler g uid role).success = true) ∧
      (u ∈ g.confirmedPlayers → (leaveGame g u).success = true) ∧
      ((∃ r ∈ g.joinRequests, r.userId = u) →
        (respondToJoinRequest g g.hostId u false).success = true) := by
  intro g u uid role now upd
  refine ⟨?_, ?_, ?_, ?_, ?_⟩
  · intro hne
    unfold joinGame
    rw [if_pos (bne_iff_ne.mpr hne)]
  · intro hst
    have hcond : (g.status == "in_progress" || g.status == "completed") = true := by
      rcases hst with h | h <;> simp [h]
    have hu : updateGameHandler g uid role upd =
        ⟨false, "Only the host can update this game", g⟩ ∨
        updateGameHandler g uid role upd =
        ⟨false, "Cannot update game that has started or completed", g⟩ := by
      unfold updateGameHandler
      split
      · left; rfl
      · right; rfl
    have hc : cancelGameHandler g uid role =
        ⟨false, "Only the host can cancel this game", g⟩ ∨
        cancelGameHandler g uid role =
        ⟨false, "Cannot cancel game that has started or completed", g⟩ := by
      unfold cancelGameHandler
      split
      · left; rfl
      · right; rfl
    rcases hu with hu | hu <;> rcases hc with hc | hc <;> simp [hu, hc]
  · intro hhost hcanc
    have h1 : (g.hostId != uid && role != "admin") = false := by
      simp [hhost]
    have h2 : (g.status == "in_progress" || g.status == "completed") = false := by
      rw [hcanc]; decide
    constructor
    · unfold updateGameHandler
      rw [if_neg (by simp [h1]), if_neg (by simp [h2])]
    · unfold cancelGameHandler
      rw [if_neg (by simp [h1]), if_neg (by simp [h2])]
  · intro hu
    have hlt : (g.confirmedPlayers.filter (fun id => id != u)).length <
        g.confirmedPlayers.length :=
      List.length_filter_lt_length_iff_exists.mpr ⟨u, hu, by simp⟩
    simp only [leaveGame]
    rw [if_neg]
    simp only [Bool.and_eq_true, beq_iff_eq]
    rintro ⟨h, -⟩
    exact absurd h (Nat.ne_of_lt hlt)
  · rintro ⟨r, hr, hru⟩
    have hany : g.joinRequests.any (fun req => req.userId == u) = true :=
      List.any_eq_true.mpr ⟨r, hr, beq_iff_eq.mpr hru⟩
    unfold respondToJoinRequest
    rw [if_neg (by simp), if_neg (by simp [hany]), if_neg (by decide)]

/-- C3 witness: the amended statement exercised on an in-progress game and
on the cancelled fixture. -/
theorem C3_closed_status_witness :
    joinGame gameCancelled "z" "t0" =
      ⟨false, "Game is not open for joining", gameCancelled⟩ ∧
    (updateGameHandler gameInProgress "host" "user" emptyGameUpdate).success = false ∧
    (cancelGameHandler gameInProgress "host" "user").success = false ∧
    (updateGameHandler gameCancelled "host" "user" emptyGameUpdate).success = true ∧
    (cancelGameHandler gameCancelled "host" "user").success = true ∧
    (leaveGame gameCancelled "a").success = true ∧
    (respondToJoinRequest gameCancelled "host" "b" false).success = true := by
  refine ⟨?_, ?_, ?_, ?_, ?_, ?_, ?_⟩
  · exact (C3_closed_status_amended gameCancelled "z" "u" "user" "t0" emptyGameUpdate).1
      (by decide)
  · exact ((C3_closed_status_amended gameInProgress "z" "host" "user" "t0"
      emptyGameUpdate).2.1 (Or.inl rfl)).1
  · exact ((C3_closed_status_amended gameInProgress "z" "host" "user" "t0"
      emptyGameUpdate).2.1 (Or.inl rfl)).2.2.1
  · exact ((C3_closed_status_amended gameCancelled "z" "host" "user" "t0"
      emptyGameUpdate).2.2.1 rfl rfl).1
  · exact ((C3_closed_status_amended gameCancelled "z" "host" "user" "t0"
      emptyGameUpdate).2.2.1 rfl rfl).2
  · exact (C3_closed_status_amended gameCancelled "a" "host" "user" "t0"
      emptyGameUpdate).2.2.2.1 (by decide)
  · exact (C3_closed_status_amended gameCancelled "b" "host" "user" "t0"
      emptyGameUpdate).2.2.2.2 ⟨⟨"b", "t0", "pending"⟩, by decide, rfl⟩

/-- C8: leaving a game as a user who is in neither confirmedPlayers nor
joinRequests fails with the NotAMemberError message and returns the game
unchanged, and a second identical call fails identically. -/
theorem C8_leave_nonmember_fails :
    ∀ (g : Game) (u : String),
      u ∉ g.confirmedPlayers →
      (∀ r ∈ g.joinRequests, r.userId ≠ u) →
      leaveGame g u = ⟨false, "Not part of this game", g⟩ ∧
      leaveGame (leaveGame g u).game u = ⟨false, "Not part of this game", g⟩ := by
  intro g u hc hr
  have hfc : g.confirmedPlayers.filter (fun id => id != u) = g.confirmedPlayers :=
    List.filter_eq_self.mpr (fun a ha => bne_iff_ne.mpr (fun he => hc (he ▸ ha)))
  have hfr : g.joinRequests.filter (fun req => req.userId != u) = g.joinRequests :=
    List.filter_eq_self.mpr (fun r hrm => bne_iff_ne.mpr (hr r hrm))
  have h1 : leaveGame g u = ⟨false, "Not part of this game", g⟩ := by
    simp only [leaveGame]
    rw [hfc, hfr, if_pos (by simp)]
  refine ⟨h1, ?_⟩
  rw [h1]
  exact h1

/-- C8 witness: the non-member "z" fails to leave the open fixture twice,
with no mutation. -/
theorem C8_leave_nonmember_witness :
    leaveGame gamePublicOpen "z" = ⟨false, "Not part of this game", gamePublicOpen⟩ ∧
    leaveGame (leaveGame gamePublicOpen "z").game "z" =
      ⟨false, "Not part of this game", gamePublicOpen⟩ :=
  C8_leave_nonmember_fails gamePublicOpen "z" (by decide) (by decide)

/-- C9 counterexample: joinGame on a private game reads the wall clock for
the requestedAt stamp, so two invocations with the same game snapshot and
the same inputs but different clock readings produce different updated
aggregates (their joinRequests contents differ). -/
theorem C9_determinism_counterexample :
    joinGame gamePrivateOpen "u1" "2025-01-01T00:00:00.000Z" ≠
      joinGame gamePrivateOpen "u1" "2025-01-02T00:00:00.000Z" := by
  decide

/-- C9 amended: each operation is a function of the game snapshot, the
inputs, and the current clock reading; the clock reading influences only
the requestedAt stamps, so the results of joinGame and createJoinRequest
under any two clock readings coincide once every requestedAt is erased
(the remaining operations take no clock input at all). -/
theorem C9_determinism_amended :
    ∀ (g : Game) (u t1 t2 : String),
      stripResultTimes (joinGame g u t1) = stripResultTimes (joinGame g u t2) ∧
      stripResultTimes (createJoinRequest g u t1) =
        stripResultTimes (createJoinRequest g u t2) := by
  intro g u t1 t2
  constructor
  · by_cases h1 : g.status = "open"
    · by_cases h2 : g.maxPlayers ≤ g.currentPlayers
      · simp [joinGame, h1, h2]
      · by_cases h3 : u ∈ g.confirmedPlayers
        · simp [joinGame, h1, h2, h3]
        · by_cases h4 : ∃ x ∈ g.joinRequests, x.userId = u
          · simp [joinGame, h1, h2, h3, h4]
          · by_cases h5 : g.isPrivate = false
            · simp [joinGame, h1, h2, h3, h4, h5]
            · simp [joinGame, h1, h2, h3, h4, h5, stripResultTimes, stripGameTimes,
                stripRequestTime]
    · simp [joinGame, h1]
  · by_cases h1 : g.hostId = u
    · simp [createJoinRequest, h1]
    · by_cases h2 : u ∈ g.confirmedPlayers
      · simp [createJoinRequest, h1, h2]
      · by_cases h3 : ∃ x ∈ g.joinRequests, x.userId = u
        · simp [createJoinRequest, h1, h2, h3]
        · simp [createJoinRequest, h1, h2, h3, stripResultTimes, stripGameTimes,
            stripRequestTime]

/-- C10: after every successful membership mutation the stored
currentPlayers equals len(confirmedPlayers) + 1 (the host counted once);
the private-join branch and the reject branch leave both currentPlayers
and confirmedPlayers unchanged. -/
theorem C10_currentPlayers_consistency :
    ∀ (g : Game) (u now h : String),
      ((joinGame g u now).success = true → g.isPrivate = false →
        (joinGame g u now).game.currentPlayers =
          (joinGame g u now).game.confirmedPlayers.length + 1) ∧
      ((joinGame g u now).success = true → g.isPrivate = true →
        (joinGame g u now).game.confirmedPlayers = g.confirmedPlayers ∧
        (joinGame g u now).game.currentPlayers = g.currentPlayers) ∧
      ((leaveGame g u).success = true →
        (leaveGame g u).game.currentPlayers =
          (leaveGame g u).game.confirmedPlayers.length + 1) ∧
      ((acceptRequest g u).success = true →
        (acceptRequest g u).game.currentPlayers =
          (acceptRequest g u).game.confirmedPlayers.length + 1) ∧
      ((respondToJoinRequest g h u true).success = true →
        (respondToJoinRequest g h u true).game.currentPlayers =
          (respondToJoinRequest g h u true).game.confirmedPlayers.length + 1) ∧
      ((respondToJoinRequest g h u false).success = true →
        (respondToJoinRequest g h u false).game.confirmedPlayers = g.confirmedPlayers ∧
        (respondToJoinRequest g h u false).game.currentPlayers = g.currentPlayers) := by
  intro g u now h
  refine ⟨?_, ?_, ?_, ?_, ?_, ?_⟩
  · unfold joinGame
    split
    · simp
    · split
      · simp
      · split
        · simp
        · split
          · simp
          · split
            · intro _ _; rfl
            · next h5 => intro _ hp; exact absurd hp (by simpa using h5)
  · unfold joinGame
    split
    · simp
    · split
      · simp
      · split
        · simp
        · split
          · simp
          · split
            · next h5 => intro _ hp; rw [show g.isPrivate = false from by simpa using h5] at hp; cases hp
            · intro _ _; exact ⟨rfl, rfl⟩
  · simp only [leaveGame]
    split
    · simp
    · intro _; rfl
  · unfold acceptRequest
    split
    · simp
    · intro _; rfl
  · unfold respondToJoinRequest
    split
    · simp
    · split
      · simp
      · split
        · split
          · simp
          · intro _; rfl
        · next hf => exact absurd rfl hf
  · unfold respondToJoinRequest
    split
    · simp
    · split
      · simp
      · split
        · next hf => cases hf
        · intro _; exact ⟨rfl, rfl⟩

/-- C10 witness: the consistency equations evaluated on the concrete
fixtures for each successful branch. -/
theorem C10_currentPlayers_witness :
    (joinGame gamePublicOpen "u1" "t0").game.currentPlayers =
      (joinGame gamePublicOpen "u1" "t0").game.confirmedPlayers.length + 1 ∧
    ((joinGame gamePrivateOpen "u1" "t0").game.confirmedPlayers =
      gamePrivateOpen.confirmedPlayers ∧
     (joinGame gamePrivateOpen "u1" "t0").game.currentPlayers =
      gamePrivateOpen.currentPlayers) ∧
    (leaveGame gameOneSlotLeft "a").game.currentPlayers =
      (leaveGame gameOneSlotLeft "a").game.confirmedPlayers.length + 1 ∧
    (acceptRequest gameRequestPending "b").game.currentPlayers =
      (acceptRequest gameRequestPending "b").game.confirmedPlayers.length + 1 ∧
    (respondToJoinRequest gameRequestPending "host" "b" true).game.currentPlayers =
      (respondToJoinRequest gameRequestPending "host" "b" true).game.confirmedPlayers.length + 1 ∧
    ((respondToJoinRequest gameRequestPending "host" "b" false).game.confirmedPlayers =
      gameRequestPending.confirmedPlayers ∧
     (respondToJoinRequest gameRequestPending "host" "b" false).game.currentPlayers =
      gameRequestPending.currentPlayers) := by
  refine ⟨?_, ?_, ?_, ?_, ?_, ?_⟩
  · exact (C10_currentPlayers_consistency gamePublicOpen "u1" "t0" "host").1
      (by decide) (by decide)
  · exact (C10_currentPlayers_consistency gamePrivateOpen "u1" "t0" "host").2.1
      (by decide) (by decide)
  · exact (C10_currentPlayers_consistency gameOneSlotLeft "a" "t0" "host").2.2.1
      (by decide)
  · exact (C10_currentPlayers_consistency gameRequestPending "b" "t0" "host").2.2.2.1
      (by decide)
  · exact (C10_currentPlayers_consistency gameRequestPending "b" "t0" "host").2.2.2.2.1
      (by decide)
  · exact (C10_currentPlayers_consistency gameRequestPending "b" "t0" "host").2.2.2.2.2
      (by decide)

/-- For well-formed intervals, the three-disjunct SQL condition of the
SQLite checkAvailability is exactly half-open interval overlap. -/
theorem sqlConflict_iff_overlap (a b : Nat) (bk : Booking) (hab : a < b)
    (hbk : bk.startTime < bk.endTime) :
    (((bk.startTime < b && bk.endTime > a) ||
      (bk.startTime < a && bk.endTime > b) ||
      (bk.startTime >= a && bk.startTime < b)) = true) ↔
    (a < bk.endTime ∧ bk.startTime < b) := by
  simp only [Bool.or_eq_true, Bool.and_eq_true, decide_eq_true_eq, ge_iff_le, gt_iff_lt]
  omega

/-- For well-formed intervals, the three-disjunct Supabase filter of
findConflictingBookings is exactly half-open interval overlap. -/
theorem supaConflict_iff_overlap (a b : Nat) (bk : Booking) (hab : a < b)
    (hbk : bk.startTime < bk.endTime) :
    (((bk.startTime <= a && bk.endTime > a) ||
      (bk.startTime < b && bk.endTime >= b) ||
      (bk.startTime >= a && bk.endTime <= b)) = true) ↔
    (a < bk.endTime ∧ bk.startTime < b) := by
  simp only [Bool.or_eq_true, Bool.and_eq_true, decide_eq_true_eq, ge_iff_le, gt_iff_lt]
  omega

/-- C4: both checkAvailability variants return true exactly when no
pending/confirmed booking of the turf and date (minus the excluded id in
the SQLite variant) has an interval [c, d) with startTime < d and
c < endTime; back-to-back intervals therefore do not conflict. -/
theorem C4_checkAvailability_correct :
    ∀ (bookings : List Booking) (tid : String) (dt : CalDate) (a b : Nat)
      (ex : Option String),
      a < b →
      (∀ bk ∈ bookings, bk.startTime < bk.endTime) →
      (checkAvailability bookings tid dt a b ex = true ↔
        ∀ bk ∈ bookings, bk.turfId = tid → bk.date = dt →
          (bk.status = "pending" ∨ bk.status = "confirmed") →
          (∀ e, ex = some e → bk.id ≠ e) →
          ¬(a < bk.endTime ∧ bk.startTime < b)) ∧
      (checkAvailabilitySupabase bookings tid dt a b = true ↔
        ∀ bk ∈ bookings, bk.turfId = tid → bk.date = dt →
          (bk.status = "pending" ∨ bk.status = "confirmed") →
          ¬(a < bk.endTime ∧ bk.startTime < b)) := by
  intro bookings tid dt a b ex hab hwf
  constructor
  · simp only [checkAvailability, beq_iff_eq, List.length_eq_zero, List.filter_eq_nil_iff]
    refine forall_congr' fun bk => forall_congr' fun hm => ?_
    have hw := hwf bk hm
    cases ex with
    | none =>
      simp only [Bool.and_eq_true, Bool.or_eq_true, beq_iff_eq, bne_iff_ne,
        decide_eq_true_eq, ge_iff_le, gt_iff_lt, Bool.and_true]
      constructor
      · intro hnot ht hd hs _ hov
        exact hnot ⟨⟨⟨ht, hd⟩, hs⟩, by omega⟩
      · rintro himp ⟨⟨⟨ht, hd⟩, hs⟩, hC⟩
        exact himp ht hd hs (fun e he => nomatch he) (by omega)
    | some e =>
      simp only [Bool.and_eq_true, Bool.or_eq_true, beq_iff_eq, bne_iff_ne,
        decide_eq_true_eq, ge_iff_le, gt_iff_lt]
      constructor
      · intro hnot ht hd hs hne hov
        exact hnot ⟨⟨⟨⟨ht, hd⟩, hs⟩, by omega⟩, hne e rfl⟩
      · rintro himp ⟨⟨⟨⟨ht, hd⟩, hs⟩, hC⟩, hne⟩
        exact himp ht hd hs (fun e' he' => by cases he'; exact hne) (by omega)
  · simp only [checkAvailabilitySupabase, findConflictingBookings, beq_iff_eq,
      List.length_eq_zero, List.filter_eq_nil_iff]
    refine forall_congr' fun bk => forall_congr' fun hm => ?_
    have hw := hwf bk hm
    simp only [Bool.and_eq_true, Bool.or_eq_true, beq_iff_eq, decide_eq_true_eq,
      ge_iff_le, gt_iff_lt]
    constructor
    · intro hnot ht hd hs hov
      exact hnot ⟨⟨⟨ht, hd⟩, hs⟩, by omega⟩
    · rintro himp ⟨⟨⟨ht, hd⟩, hs⟩, hC⟩
      exact himp ht hd hs (by omega)

/-- C4 witness: the equivalence instantiated at the Scenario C turf with a
confirmed 14:00-15:00 booking and the back-to-back 15:00-16:00 request. -/
theorem C4_checkAvailability_witness :
    (checkAvailability [bookingTwoToThree] "t1" ⟨2025, 8, 24⟩ 900 960 none = true ↔
      ∀ bk ∈ [bookingTwoToThree], bk.turfId = "t1" → bk.date = ⟨2025, 8, 24⟩ →
        (bk.status = "pending" ∨ bk.status = "confirmed") →
        (∀ e, (none : Option String) = some e → bk.id ≠ e) →
        ¬(900 < bk.endTime ∧ bk.startTime < 960)) ∧
    (checkAvailabilitySupabase [bookingTwoToThree] "t1" ⟨2025, 8, 24⟩ 900 960 = true ↔
      ∀ bk ∈ [bookingTwoToThree], bk.turfId = "t1" → bk.date = ⟨2025, 8, 24⟩ →
        (bk.status = "pending" ∨ bk.status = "confirmed") →
        ¬(900 < bk.endTime ∧ bk.startTime < 960)) :=
  C4_checkAvailability_correct [bookingTwoToThree] "t1" ⟨2025, 8, 24⟩ 900 960 none
    (by decide) (by decide)

/-- Every generated slot spans exactly sixty minutes. -/
theorem hourSlots_span : ∀ sl ∈ hourSlots, sl.2 = sl.1 + 60 := by decide

/-- The day query distributes over appended booking lists. -/
theorem bookedForDay_append (l1 l2 : List Booking) (tid : String) (dt : CalDate) :
    bookedForDay (l1 ++ l2) tid dt = bookedForDay l1 tid dt ++ bookedForDay l2 tid dt :=
  List.filter_append _ _

/-- C5 counterexample: with a single pending booking 06:30-07:30, the
SQLite getAvailableSlots still returns the slot 06:00-07:00 although that
slot overlaps the booking (the filter only tests whether the slot START
lies inside a booking), so the returned slots are not exactly the
non-overlapping ones; the Supabase variant correctly drops the slot. -/
theorem C5_slots_counterexample :
    (360, 420) ∈ getAvailableSlotsSqlite [bookingHalfPast] "t1" ⟨2025, 8, 24⟩ ∧
    bookingHalfPast.turfId = "t1" ∧
    bookingHalfPast.date = ⟨2025, 8, 24⟩ ∧
    bookingHalfPast.status = "pending" ∧
    360 < bookingHalfPast.endTime ∧
    bookingHalfPast.startTime < 420 ∧
    (360, 420) ∉ getAvailableSlots [bookingHalfPast] "t1" ⟨2025, 8, 24⟩ := by
  decide

/-- C5 amended: the Supabase getAvailableSlots returns exactly the
sixty-minute slots of the 06:00-23:00 grid that do not overlap any
pending/confirmed booking of the turf and date, and booking every returned
slot then recomputing yields the empty sequence; the SQLite variant
instead returns exactly the slots whose start time lies inside no such
booking. -/
theorem C5_slots_amended :
    ∀ (bookings : List Booking) (tid : String) (dt : CalDate),
      (∀ bk ∈ bookings, bk.startTime < bk.endTime) →
      (∀ sl, sl ∈ getAvailableSlots bookings tid dt ↔
          sl ∈ hourSlots ∧
          ∀ bk ∈ bookings, bk.turfId = tid → bk.date = dt →
            (bk.status = "pending" ∨ bk.status = "confirmed") →
            ¬(sl.1 < bk.endTime ∧ bk.startTime < sl.2)) ∧
      (∀ sl, sl ∈ getAvailableSlotsSqlite bookings tid dt ↔
          sl ∈ hourSlots ∧
          ∀ bk ∈ bookings, bk.turfId = tid → bk.date = dt →
            (bk.status = "pending" ∨ bk.status = "confirmed") →
            ¬(bk.startTime ≤ sl.1 ∧ sl.1 < bk.endTime)) ∧
      getAvailableSlots
        (bookings ++ (getAvailableSlots bookings tid dt).map (slotBooking tid dt))
        tid dt = [] := by
  intro bookings tid dt hwf
  refine ⟨?_, ?_, ?_⟩
  · intro sl
    simp only [getAvailableSlots, bookedForDay, List.mem_filter, Bool.not_eq_true',
      List.any_eq_false, List.mem_filter, Bool.and_eq_true, Bool.or_eq_true,
      beq_iff_eq, decide_eq_true_eq, ge_iff_le, gt_iff_lt, Bool.not_eq_true]
    refine and_congr_right fun hsl => ?_
    have hspan := hourSlots_span sl hsl
    constructor
    · intro hno bk hm ht hd hs hov
      have := hno bk ⟨hm, ⟨⟨ht, hd⟩, hs⟩⟩
      have hw := hwf bk hm
      omega
    · intro himp bk ⟨hm, ⟨⟨ht, hd⟩, hs⟩⟩
      have := himp bk hm ht hd hs
      have hw := hwf bk hm
      omega
  · intro sl
    simp only [getAvailableSlotsSqlite, bookedForDay, List.mem_filter, Bool.not_eq_true',
      List.any_eq_false, List.mem_filter, Bool.and_eq_true, Bool.or_eq_true,
      beq_iff_eq, decide_eq_true_eq, ge_iff_le, gt_iff_lt]
    refine and_congr_right fun hsl => ?_
    constructor
    · intro hno bk hm ht hd hs hin
      have := hno bk ⟨hm, ⟨⟨ht, hd⟩, hs⟩⟩
      omega
    · intro himp bk ⟨hm, ⟨⟨ht, hd⟩, hs⟩⟩
      have := himp bk hm ht hd hs
      omega
  · simp only [getAvailableSlots, List.filter_eq_nil_iff]
    intro sl hsl
    have hspan := hourSlots_span sl hsl
    rw [Bool.not_eq_true']
    apply Bool.ne_false_iff.mpr
    by_cases hmem : sl ∈ getAvailableSlots bookings tid dt
    · apply List.any_eq_true.mpr
      refine ⟨slotBooking tid dt sl, ?_, ?_⟩
      · rw [bookedForDay_append]
        apply List.mem_append_right
        simp only [bookedForDay]
        exact List.mem_filter.mpr ⟨List.mem_map_of_mem _ hmem, by simp [slotBooking]⟩
      · simp only [slotBooking, Bool.or_eq_true, Bool.and_eq_true, decide_eq_true_eq,
          ge_iff_le, gt_iff_lt]
        omega
    · simp only [getAvailableSlots, List.mem_filter] at hmem
      have h1 := fun h => hmem ⟨hsl, h⟩
      rw [Bool.not_eq_true'] at h1
      obtain ⟨bk, hbmem, hbcond⟩ := List.any_eq_true.mp (eq_true_of_ne_false h1)
      apply List.any_eq_true.mpr
      refine ⟨bk, ?_, hbcond⟩
      rw [bookedForDay_append]
      exact List.mem_append_left _ hbmem

/-- C5 witness: the amended statement instantiated on the 06:30-07:30
pending booking. -/
theorem C5_slots_witness :
    (∀ sl, sl ∈ getAvailableSlots [bookingHalfPast] "t1" ⟨2025, 8, 24⟩ ↔
        sl ∈ hourSlots ∧
        ∀ bk ∈ [bookingHalfPast], bk.turfId = "t1" → bk.date = ⟨2025, 8, 24⟩ →
          (bk.status = "pending" ∨ bk.status = "confirmed") →
          ¬(sl.1 < bk.endTime ∧ bk.startTime < sl.2)) ∧
    (∀ sl, sl ∈ getAvailableSlotsSqlite [bookingHalfPast] "t1" ⟨2025, 8, 24⟩ ↔
        sl ∈ hourSlots ∧
        ∀ bk ∈ [bookingHalfPast], bk.turfId = "t1" → bk.date = ⟨2025, 8, 24⟩ →
          (bk.status = "pending" ∨ bk.status = "confirmed") →
          ¬(bk.startTime ≤ sl.1 ∧ sl.1 < bk.endTime)) ∧
    getAvailableSlots
      ([bookingHalfPast] ++
        (getAvailableSlots [bookingHalfPast] "t1" ⟨2025, 8, 24⟩).map
          (slotBooking "t1" ⟨2025, 8, 24⟩))
      "t1" ⟨2025, 8, 24⟩ = [] :=
  C5_slots_amended [bookingHalfPast] "t1" ⟨2025, 8, 24⟩ (by decide)

/-- The Boolean weekend-rate guard of the booking route is the
proposition: the date falls on Sunday or Saturday and the weekend rate is
present and nonzero. -/
theorem weekendGuard_iff (dt : CalDate) (o : Option Rat) :
    ((getDay dt == 0 || getDay dt == 6) && rateTruthy o) = true ↔
      ((getDay dt = 0 ∨ getDay dt = 6) ∧ ∃ w, o = some w ∧ w ≠ 0) := by
  cases o with
  | none => simp [rateTruthy]
  | some w =>
    simp only [rateTruthy, Bool.and_eq_true, Bool.or_eq_true, beq_iff_eq, bne_iff_ne]
    constructor
    · rintro ⟨hd, hw⟩
      exact ⟨hd, w, rfl, hw⟩
    · rintro ⟨hd, w', hw', hne⟩
      cases hw'
      exact ⟨hd, hne⟩

/-- C6 counterexample: a booking request whose end precedes its start is
claimed to fail with InvalidIntervalError, but the handler performs no
such check: with start 11:00 and end 09:00 on an inactive-free turf with
hourly rate 800 it succeeds and stores a booking with totalAmount -1600. -/
theorem C6_pricing_counterexample :
    createBookingHandler (some turfTest) [] "nid" "u1" "t1" ⟨2025, 8, 25⟩ 660 540 10
      none none =
    .ok ⟨"nid", "u1", "t1", ⟨2025, 8, 25⟩, 660, 540, 10, -1600, "pending", none,
      "pending", none⟩ := by
  have hday : getDay ⟨2025, 8, 25⟩ = 1 := by decide
  simp only [createBookingHandler]
  rw [if_neg (by decide), if_neg (by decide)]
  simp only [turfTest, rateTruthy, hday]
  norm_num

/-- C6 amended: whenever the turf is active and the availability check
passes, booking creation succeeds (even when end <= start; no
InvalidIntervalError exists) and the stored totalAmount equals
(endMinutes - startMinutes) / 60 times the weekend rate when the date
falls on Sunday or Saturday and a nonzero weekend rate is set, else times
the hourly rate. -/
theorem C6_pricing_amended :
    ∀ (t : Turf) (bookings : List Booking) (newId userId turfId : String)
      (dt : CalDate) (a b tp : Nat) (notes pm : Option String),
      t.isActive = true →
      checkAvailability bookings turfId dt a b none = true →
      createBookingHandler (some t) bookings newId userId turfId dt a b tp notes pm =
        .ok ⟨newId, userId, turfId, dt, a, b, tp,
          (((b : Int) - (a : Int) : Int) : Rat) / 60 *
            (if (getDay dt = 0 ∨ getDay dt = 6) ∧ ∃ w, t.pricePerHourWeekend = some w ∧ w ≠ 0
             then t.pricePerHourWeekend.getD 0
             else t.pricePerHour),
          "pending", notes, "pending", pm⟩ := by
  intro t bookings newId userId turfId dt a b tp notes pm hact havail
  simp only [createBookingHandler]
  rw [if_neg (by simp [hact]), if_neg (by simp [havail])]
  by_cases hw :
      (getDay dt = 0 ∨ getDay dt = 6) ∧ ∃ w, t.pricePerHourWeekend = some w ∧ w ≠ 0
  · rw [if_pos ((weekendGuard_iff dt t.pricePerHourWeekend).mpr hw), if_pos hw]
  · rw [if_neg (fun hb => hw ((weekendGuard_iff dt t.pricePerHourWeekend).mp hb)),
      if_neg hw]

/-- C6 witness: Scenario D, the Sunday 2025-08-24 booking 09:00-11:00 at
hourly rate 800 and weekend rate 1000. -/
theorem C6_pricing_witness :
    createBookingHandler (some turfTest) [] "nid" "u1" "t1" ⟨2025, 8, 24⟩ 540 660 10
      none none =
      .ok ⟨"nid", "u1", "t1", ⟨2025, 8, 24⟩, 540, 660, 10,
        (((660 : Int) - (540 : Int) : Int) : Rat) / 60 *
          (if (getDay ⟨2025, 8, 24⟩ = 0 ∨ getDay ⟨2025, 8, 24⟩ = 6) ∧
              ∃ w, turfTest.pricePerHourWeekend = some w ∧ w ≠ 0
           then turfTest.pricePerHourWeekend.getD 0
           else turfTest.pricePerHour),
        "pending", none, "pending", none⟩ ∧
    (((660 : Int) - (540 : Int) : Int) : Rat) / 60 *
        (if (getDay ⟨2025, 8, 24⟩ = 0 ∨ getDay ⟨2025, 8, 24⟩ = 6) ∧
            ∃ w, turfTest.pricePerHourWeekend = some w ∧ w ≠ 0
         then turfTest.pricePerHourWeekend.getD 0
         else turfTest.pricePerHour) = 2000 := by
  constructor
  · exact C6_pricing_amended turfTest [] "nid" "u1" "t1" ⟨2025, 8, 24⟩ 540 660 10
      none none (by decide) (by decide)
  · rw [if_pos (by refine ⟨Or.inl (by decide), 1000, rfl, by norm_num⟩)]
    norm_num [turfTest]

end Turfer
